import Mathlib

/-!
Verification of `docling/cli/models.py`: the `download` command of the
Docling models helper CLI.

The command is embedded as a pure function.  Console and logging side
effects are recorded as an ordered event trace; the external
`download_models` collaborator is a parameter of type
`DMArgs → Except ε String` (it may fail with an arbitrary error `ε`, or
return the resulting output directory).
-/

namespace DoclingModels

/-- The closed enumeration `_AvailableModels` of known model identifiers,
in source declaration order. -/
inductive _AvailableModels where
  | LAYOUT
  | TABLEFORMER
  | CODE_FORMULA
  | PICTURE_CLASSIFIER
  | SMOLVLM
  | SMOLDOCLING
  | SMOLDOCLING_MLX
  | GRANITE_VISION
  | EASYOCR
deriving DecidableEq, Repr, Fintype

/-- The string value attached to each enum member. -/
def _AvailableModels.value : _AvailableModels → String
  | .LAYOUT => "layout"
  | .TABLEFORMER => "tableformer"
  | .CODE_FORMULA => "code_formula"
  | .PICTURE_CLASSIFIER => "picture_classifier"
  | .SMOLVLM => "smolvlm"
  | .SMOLDOCLING => "smoldocling"
  | .SMOLDOCLING_MLX => "smoldocling_mlx"
  | .GRANITE_VISION => "granite_vision"
  | .EASYOCR => "easyocr"

/-- `list(_AvailableModels)`: the full enumeration, in declaration order. -/
def listAvailableModels : List _AvailableModels :=
  [.LAYOUT, .TABLEFORMER, .CODE_FORMULA, .PICTURE_CLASSIFIER, .SMOLVLM,
   .SMOLDOCLING, .SMOLDOCLING_MLX, .GRANITE_VISION, .EASYOCR]

/-- `_default_models`: the hard-coded default subset. -/
def _default_models : List _AvailableModels :=
  [.LAYOUT, .TABLEFORMER, .CODE_FORMULA, .PICTURE_CLASSIFIER, .EASYOCR]

/-- The keyword arguments of one call to the external `download_models`
collaborator, in source order. -/
structure DMArgs where
  output_dir : String
  force : Bool
  progress : Bool
  with_layout : Bool
  with_tableformer : Bool
  with_code_formula : Bool
  with_picture_classifier : Bool
  with_smolvlm : Bool
  with_smoldocling : Bool
  with_smoldocling_mlx : Bool
  with_granite_vision : Bool
  with_easyocr : Bool
deriving DecidableEq, Repr

/-- One observable side effect of the command, in order of occurrence. -/
inductive Event where
  /-- `logging.basicConfig(...)`: process-wide logging configuration. -/
  | configureLogging
  /-- the call into the external `download_models` collaborator. -/
  | dispatch (args : DMArgs)
  /-- `typer.echo(...)`: one plain line on standard output. -/
  | echo (s : String)
  /-- `typer.secho(..., fg="green")`: one colored line on standard output. -/
  | secho (s : String)
  /-- `console.print(...)`: rich console output of several parts. -/
  | consolePrint (parts : List String)
deriving DecidableEq, Repr

/-- How one invocation of the command ends. -/
inductive Outcome (ε : Type) where
  /-- normal return. -/
  | ok
  /-- `typer.BadParameter` raised during validation. -/
  | badParameter (msg : String)
  /-- an exception raised by the external `download_models` collaborator,
  propagating out of the command. -/
  | raised (e : ε)
deriving DecidableEq, Repr

/-- The full observable behavior of one invocation: the ordered trace of
side effects, and the way the command ends. -/
structure RunResult (ε : Type) where
  trace : List Event
  outcome : Outcome ε
deriving DecidableEq, Repr

/-- Python truthiness of the optional `models` argument: `None` and the
empty list are falsy, a non-empty list is truthy. -/
def truthy : Option (List _AvailableModels) → Bool
  | none => false
  | some [] => false
  | some (_ :: _) => true

/-- Python `a or b` on the optional `models` argument: the list itself if
truthy, otherwise the fallback. -/
def pyOr : Option (List _AvailableModels) → List _AvailableModels →
    List _AvailableModels
  | some (m :: ms), _ => m :: ms
  | some [], d => d
  | none, d => d

/-- `to_download = models or (list(_AvailableModels) if all else _default_models)`. -/
def to_download_of (models : Option (List _AvailableModels)) (all : Bool) :
    List _AvailableModels :=
  pyOr models (if all then listAvailableModels else _default_models)

/-- The argument record passed to `download_models`: the output directory
and force flag unchanged, `progress = not quiet`, and one membership test
of `to_download` per known model identifier. -/
def resolvedArgs (output_dir : String) (force : Bool)
    (models : Option (List _AvailableModels)) (all quiet : Bool) : DMArgs :=
  let to_download := to_download_of models all
  { output_dir := output_dir
    force := force
    progress := !quiet
    with_layout := decide (_AvailableModels.LAYOUT ∈ to_download)
    with_tableformer := decide (_AvailableModels.TABLEFORMER ∈ to_download)
    with_code_formula := decide (_AvailableModels.CODE_FORMULA ∈ to_download)
    with_picture_classifier :=
      decide (_AvailableModels.PICTURE_CLASSIFIER ∈ to_download)
    with_smolvlm := decide (_AvailableModels.SMOLVLM ∈ to_download)
    with_smoldocling := decide (_AvailableModels.SMOLDOCLING ∈ to_download)
    with_smoldocling_mlx :=
      decide (_AvailableModels.SMOLDOCLING_MLX ∈ to_download)
    with_granite_vision :=
      decide (_AvailableModels.GRANITE_VISION ∈ to_download)
    with_easyocr := decide (_AvailableModels.EASYOCR ∈ to_download) }

/-- The exact message of the `typer.BadParameter` raised on simultaneous
explicit model list and `--all`. -/
def badParamMsg : String :=
  "Cannot simultaneously set \x27all\x27 parameter and specify models to download."

/-- The console output events after a successful dispatch returning
`new_dir`: in quiet mode a single `typer.echo` of the directory, otherwise
the colored success message and the usage hint. -/
def outputEvents (quiet : Bool) (new_dir : String) : List Event :=
  if quiet then
    [.echo new_dir]
  else
    [.secho ("\nModels downloaded into: " ++ new_dir ++ "."),
     .consolePrint
       ["\n",
        "Docling can now be configured for running offline using the local artifacts.\n\n",
        "Using the CLI:",
        "`docling --artifacts-path=" ++ new_dir ++ " FILE`",
        "\n",
        "Using Python: see the documentation at <https://docling-project.github.io/docling/usage>."]]

/-- The part of the command after validation: optional logging
configuration, the single dispatch into `download_models`, then either
propagation of its error or the console output. -/
def runDispatch {ε : Type} (download_models : DMArgs → Except ε String)
    (args : DMArgs) (quiet : Bool) : RunResult ε :=
  let pre : List Event := if quiet then [] else [.configureLogging]
  match download_models args with
  | .error e => { trace := pre ++ [.dispatch args], outcome := .raised e }
  | .ok new_dir =>
      { trace := pre ++ [.dispatch args] ++ outputEvents quiet new_dir
        outcome := .ok }

/-- The `download` command, parameterized by the external `download_models`
collaborator. -/
def download {ε : Type} (download_models : DMArgs → Except ε String)
    (output_dir : String) (force : Bool)
    (models : Option (List _AvailableModels)) (all quiet : Bool) :
    RunResult ε :=
  if truthy models && all then
    { trace := [], outcome := .badParameter badParamMsg }
  else
    runDispatch download_models
      (resolvedArgs output_dir force models all quiet) quiet

/-- The arguments of the `download_models` calls recorded in a run, in
order. -/
def dispatches {ε : Type} (r : RunResult ε) : List DMArgs :=
  r.trace.filterMap fun e =>
    match e with
    | .dispatch a => some a
    | _ => none

/-- The writes a run makes to standard output, in order (both `typer`
echoes and the rich console print on `stdout`). -/
def stdoutWrites : List Event → List String
  | [] => []
  | .echo s :: es => s :: stdoutWrites es
  | .secho s :: es => s :: stdoutWrites es
  | .consolePrint ps :: es => String.intercalate " " ps :: stdoutWrites es
  | .configureLogging :: es => stdoutWrites es
  | .dispatch _ :: es => stdoutWrites es

/-- A trivially succeeding collaborator, used to exercise the theorems on
concrete inputs. -/
def dmOk : DMArgs → Except Unit String :=
  fun a => .ok a.output_dir

/-- A collaborator that always raises, used to exercise the error-path
theorems on concrete inputs. -/
def dmFail : DMArgs → Except Nat String :=
  fun _ => .error 7

/-- After validation the command performs exactly one dispatch into
`download_models`, with the resolved arguments. -/
theorem dispatches_runDispatch {ε : Type} (dm : DMArgs → Except ε String)
    (args : DMArgs) (quiet : Bool) :
    dispatches (runDispatch dm args quiet) = [args] := by
  unfold runDispatch
  cases dm args <;> cases quiet <;> simp [dispatches, outputEvents]

/-- C1: supplying both a non-empty explicit model list and `--all` raises
`typer.BadParameter` before any dispatch: the run has an empty trace (no
call to `download_models`, no logging configuration, no output) and ends
with the bad-parameter outcome. -/
theorem C1_mutual_exclusion_no_dispatch {ε : Type}
    (dm : DMArgs → Except ε String) (output_dir : String) (force : Bool)
    (l : List _AvailableModels) (quiet : Bool) (h : l ≠ []) :
    download dm output_dir force (some l) true quiet =
      { trace := [], outcome := .badParameter badParamMsg } := by
  cases l with
  | nil => exact absurd rfl h
  | cons m ms => rfl

/-- Witness for C1 at a concrete input. -/
theorem C1_mutual_exclusion_no_dispatch_witness :
    download dmOk "d" false (some [_AvailableModels.LAYOUT]) true false =
      { trace := [], outcome := .badParameter badParamMsg } :=
  C1_mutual_exclusion_no_dispatch dmOk "d" false [_AvailableModels.LAYOUT]
    false (by decide)

/-- C2: with no model arguments and `--all` false, the single dispatch
carries exactly the default subset: `with_layout`, `with_tableformer`,
`with_code_formula`, `with_picture_classifier` and `with_easyocr` are
true and the other four flags are false. -/
theorem C2_default_selection {ε : Type} (dm : DMArgs → Except ε String)
    (output_dir : String) (force quiet : Bool) :
    dispatches (download dm output_dir force none false quiet) =
      [{ output_dir := output_dir, force := force, progress := !quiet,
         with_layout := true, with_tableformer := true,
         with_code_formula := true, with_picture_classifier := true,
         with_smolvlm := false, with_smoldocling := false,
         with_smoldocling_mlx := false, with_granite_vision := false,
         with_easyocr := true }] := by
  have h : download dm output_dir force none false quiet =
      runDispatch dm (resolvedArgs output_dir force none false quiet)
        quiet := rfl
  rw [h, dispatches_runDispatch]
  rfl

/-- C3: with `--all` true and no explicit model arguments, the single
dispatch carries the full enumeration: all nine `with_` flags are true. -/
theorem C3_all_selection {ε : Type} (dm : DMArgs → Except ε String)
    (output_dir : String) (force quiet : Bool) :
    dispatches (download dm output_dir force none true quiet) =
      [{ output_dir := output_dir, force := force, progress := !quiet,
         with_layout := true, with_tableformer := true,
         with_code_formula := true, with_picture_classifier := true,
         with_smolvlm := true, with_smoldocling := true,
         with_smoldocling_mlx := true, with_granite_vision := true,
         with_easyocr := true }] := by
  have h : download dm output_dir force none true quiet =
      runDispatch dm (resolvedArgs output_dir force none true quiet)
        quiet := rfl
  rw [h, dispatches_runDispatch]
  rfl

/-- C4: with a non-empty explicit list and `--all` false, the single
dispatch carries exactly the named models: each `with_` flag is the
membership test of the corresponding identifier in the supplied list. -/
theorem C4_explicit_selection {ε : Type} (dm : DMArgs → Except ε String)
    (output_dir : String) (force quiet : Bool)
    (l : List _AvailableModels) (h : l ≠ []) :
    dispatches (download dm output_dir force (some l) false quiet) =
      [{ output_dir := output_dir, force := force, progress := !quiet,
         with_layout := decide (_AvailableModels.LAYOUT ∈ l),
         with_tableformer := decide (_AvailableModels.TABLEFORMER ∈ l),
         with_code_formula := decide (_AvailableModels.CODE_FORMULA ∈ l),
         with_picture_classifier :=
           decide (_AvailableModels.PICTURE_CLASSIFIER ∈ l),
         with_smolvlm := decide (_AvailableModels.SMOLVLM ∈ l),
         with_smoldocling := decide (_AvailableModels.SMOLDOCLING ∈ l),
         with_smoldocling_mlx :=
           decide (_AvailableModels.SMOLDOCLING_MLX ∈ l),
         with_granite_vision :=
           decide (_AvailableModels.GRANITE_VISION ∈ l),
         with_easyocr := decide (_AvailableModels.EASYOCR ∈ l) }] := by
  cases l with
  | nil => exact absurd rfl h
  | cons m ms =>
    have h1 : download dm output_dir force (some (m :: ms)) false quiet =
        runDispatch dm
          (resolvedArgs output_dir force (some (m :: ms)) false quiet)
          quiet := rfl
    rw [h1, dispatches_runDispatch]
    rfl

/-- Witness for C4 at a concrete input. -/
theorem C4_explicit_selection_witness :
    dispatches
        (download dmOk "d" true
          (some [_AvailableModels.TABLEFORMER, _AvailableModels.EASYOCR])
          false false) =
      [{ output_dir := "d", force := true, progress := !false,
         with_layout :=
           decide (_AvailableModels.LAYOUT ∈
             [_AvailableModels.TABLEFORMER, _AvailableModels.EASYOCR]),
         with_tableformer :=
           decide (_AvailableModels.TABLEFORMER ∈
             [_AvailableModels.TABLEFORMER, _AvailableModels.EASYOCR]),
         with_code_formula :=
           decide (_AvailableModels.CODE_FORMULA ∈
             [_AvailableModels.TABLEFORMER, _AvailableModels.EASYOCR]),
         with_picture_classifier :=
           decide (_AvailableModels.PICTURE_CLASSIFIER ∈
             [_AvailableModels.TABLEFORMER, _AvailableModels.EASYOCR]),
         with_smolvlm :=
           decide (_AvailableModels.SMOLVLM ∈
             [_AvailableModels.TABLEFORMER, _AvailableModels.EASYOCR]),
         with_smoldocling :=
           decide (_AvailableModels.SMOLDOCLING ∈
             [_AvailableModels.TABLEFORMER, _AvailableModels.EASYOCR]),
         with_smoldocling_mlx :=
           decide (_AvailableModels.SMOLDOCLING_MLX ∈
             [_AvailableModels.TABLEFORMER, _AvailableModels.EASYOCR]),
         with_granite_vision :=
           decide (_AvailableModels.GRANITE_VISION ∈
             [_AvailableModels.TABLEFORMER, _AvailableModels.EASYOCR]),
         with_easyocr :=
           decide (_AvailableModels.EASYOCR ∈
             [_AvailableModels.TABLEFORMER, _AvailableModels.EASYOCR]) }] :=
  C4_explicit_selection dmOk "d" true false
    [_AvailableModels.TABLEFORMER, _AvailableModels.EASYOCR] (by decide)

/-- C5: in quiet mode, when validation passes and `download_models`
returns `p`, standard output contains exactly `p` and nothing else. -/
theorem C5_quiet_stdout_exactly_path {ε : Type}
    (dm : DMArgs → Except ε String) (output_dir : String) (force : Bool)
    (models : Option (List _AvailableModels)) (all : Bool) (p : String)
    (hv : (truthy models && all) = false)
    (hp : dm (resolvedArgs output_dir force models all true) = .ok p) :
    stdoutWrites (download dm output_dir force models all true).trace =
      [p] := by
  unfold download runDispatch
  rw [hv]
  simp only [Bool.false_eq_true, if_false, hp]
  rfl

/-- Witness for C5 at a concrete input. -/
theorem C5_quiet_stdout_exactly_path_witness :
    stdoutWrites (download dmOk "d" false none false true).trace = ["d"] :=
  C5_quiet_stdout_exactly_path dmOk "d" false none false "d" (by decide) rfl

/-- C6: an error raised by the external `download_models` collaborator
propagates out unmodified: after the single dispatch the run ends with
exactly that error, with no further events (no output, no retry, no
recovery). -/
theorem C6_downloader_error_propagates {ε : Type}
    (dm : DMArgs → Except ε String) (output_dir : String) (force : Bool)
    (models : Option (List _AvailableModels)) (all quiet : Bool) (e : ε)
    (hv : (truthy models && all) = false)
    (he : dm (resolvedArgs output_dir force models all quiet) = .error e) :
    download dm output_dir force models all quiet =
      { trace := (if quiet then [] else [.configureLogging]) ++
          [.dispatch (resolvedArgs output_dir force models all quiet)],
        outcome := .raised e } := by
  unfold download runDispatch
  rw [hv]
  simp only [Bool.false_eq_true, if_false, he]

/-- Witness for C6 at a concrete input. -/
theorem C6_downloader_error_propagates_witness :
    download dmFail "d" false none false true =
      { trace := (if true then [] else [.configureLogging]) ++
          [.dispatch (resolvedArgs "d" false none false true)],
        outcome := .raised 7 } :=
  C6_downloader_error_propagates dmFail "d" false none false true 7
    (by decide) rfl

/-- C7: every dispatched argument record carries the output directory and
force flag unchanged and a progress flag equal to the inverse of quiet. -/
theorem C7_passthrough_and_progress {ε : Type}
    (dm : DMArgs → Except ε String) (output_dir : String) (force : Bool)
    (models : Option (List _AvailableModels)) (all quiet : Bool)
    (a : DMArgs)
    (ha : a ∈ dispatches (download dm output_dir force models all quiet)) :
    a.progress = !quiet ∧ a.output_dir = output_dir ∧ a.force = force := by
  unfold download at ha
  by_cases hv : (truthy models && all) = true
  · rw [if_pos hv] at ha
    simp [dispatches] at ha
  · rw [if_neg hv, dispatches_runDispatch] at ha
    simp only [List.mem_singleton] at ha
    subst ha
    exact ⟨rfl, rfl, rfl⟩

/-- Witness for C7 at a concrete input. -/
theorem C7_passthrough_and_progress_witness :
    (resolvedArgs "d" true none false false).progress = !false ∧
    (resolvedArgs "d" true none false false).output_dir = "d" ∧
    (resolvedArgs "d" true none false false).force = true :=
  C7_passthrough_and_progress dmOk "d" true none false false
    (resolvedArgs "d" true none false false) (by decide)

/-- C8: for invocations that pass validation, logging is configured if and
only if quiet is false, and when configured it is the first event of the
run, before the dispatch into `download_models`. -/
theorem C8_logging_iff_not_quiet {ε : Type}
    (dm : DMArgs → Except ε String) (output_dir : String) (force : Bool)
    (models : Option (List _AvailableModels)) (all quiet : Bool)
    (hv : (truthy models && all) = false) :
    ((Event.configureLogging ∈
        (download dm output_dir force models all quiet).trace) ↔
      quiet = false) ∧
    (quiet = false →
      (download dm output_dir force models all quiet).trace.take 2 =
        [Event.configureLogging,
         Event.dispatch (resolvedArgs output_dir force models all false)]) := by
  have hd : download dm output_dir force models all quiet =
      runDispatch dm (resolvedArgs output_dir force models all quiet)
        quiet := by
    unfold download
    rw [hv]
    simp only [Bool.false_eq_true, if_false]
  rw [hd]
  unfold runDispatch
  cases quiet <;>
    cases hdm : dm (resolvedArgs output_dir force models all _) <;>
    simp [outputEvents]

/-- Witness for C8 at a concrete input. -/
theorem C8_logging_iff_not_quiet_witness :
    ((Event.configureLogging ∈
        (download dmOk "d" false none false false).trace) ↔
      false = false) ∧
    (false = false →
      (download dmOk "d" false none false false).trace.take 2 =
        [Event.configureLogging,
         Event.dispatch (resolvedArgs "d" false none false false)]) :=
  C8_logging_iff_not_quiet dmOk "d" false none false false (by decide)

/-- C9: an empty explicit model list behaves exactly as if no list were
supplied: the whole run is identical, so it never triggers the
mutual-exclusivity error and resolution falls through to `--all` or the
default subset. -/
theorem C9_empty_list_like_none {ε : Type}
    (dm : DMArgs → Except ε String) (output_dir : String)
    (force all quiet : Bool) :
    download dm output_dir force (some []) all quiet =
      download dm output_dir force none all quiet := rfl

/-- C10: the behavior of the command on an explicit list depends only on
the set of identifiers in it: two lists with the same members (whatever
order or duplication) give identical runs, hence identical dispatched
flags. -/
theorem C10_flags_depend_only_on_membership {ε : Type}
    (dm : DMArgs → Except ε String) (output_dir : String)
    (force all quiet : Bool) (l₁ l₂ : List _AvailableModels)
    (h : ∀ m, m ∈ l₁ ↔ m ∈ l₂) :
    download dm output_dir force (some l₁) all quiet =
      download dm output_dir force (some l₂) all quiet := by
  cases l₁ with
  | nil =>
    cases l₂ with
    | nil => rfl
    | cons b bs =>
      exact absurd ((h b).mpr (List.mem_cons_self b bs)) (by simp)
  | cons a as =>
    cases l₂ with
    | nil =>
      exact absurd ((h a).mp (List.mem_cons_self a as)) (by simp)
    | cons b bs =>
      cases all with
      | true => rfl
      | false =>
        have hargs :
            resolvedArgs output_dir force (some (a :: as)) false quiet =
              resolvedArgs output_dir force (some (b :: bs)) false quiet := by
          simp only [resolvedArgs, to_download_of, pyOr, DMArgs.mk.injEq,
            true_and, decide_eq_decide]
          exact ⟨h _, h _, h _, h _, h _, h _, h _, h _, h _⟩
        show
          runDispatch dm
              (resolvedArgs output_dir force (some (a :: as)) false quiet)
              quiet =
            runDispatch dm
              (resolvedArgs output_dir force (some (b :: bs)) false quiet)
              quiet
        rw [hargs]

/-- Witness for C10 at a concrete input: a duplicated, reordered list. -/
theorem C10_flags_depend_only_on_membership_witness :
    download dmOk "d" false
        (some [_AvailableModels.LAYOUT, _AvailableModels.EASYOCR])
        false false =
      download dmOk "d" false
        (some [_AvailableModels.EASYOCR, _AvailableModels.LAYOUT,
               _AvailableModels.LAYOUT]) false false :=
  C10_flags_depend_only_on_membership dmOk "d" false false false
    [_AvailableModels.LAYOUT, _AvailableModels.EASYOCR]
    [_AvailableModels.EASYOCR, _AvailableModels.LAYOUT,
     _AvailableModels.LAYOUT] (by decide)

end DoclingModels
